import Mathlib

/-!
# Wormhole.cc : scenario construction for the AODV wormhole simulation

A shallow embedding of `main` of `Wormhole.cc`: the scenario selection, the
position allocation loop, the node / device wiring, the address assignment,
the application set-up, the animation placement loop and the scheduled times.

Conventions.
* The layout variables are C++ `double`s holding small integers; every
  arithmetic step on them stays on exactly representable integers, so the
  coordinates are modelled as `Int`.
* `uint8_t` loop counters are `Nat`s reduced modulo 256 on increment.
* The ns-3 helper calls (`Create`, `Install`, `Assign`, ...) are modelled by
  their container-level effect only: which objects they create, on which node,
  in which order.
* The source fills `positionAlloc` but never hands it to `mobility`, so `mobility.Install`
  runs with the helper default (every node at the origin); the position of a node in a run is
  the one the later `SetConstantPosition` call writes.
* Simulation times are rationals, in seconds.
-/

namespace Wormhole

/-! ## Layout variables and scenario selection -/

/-- The position variables of the variable section of `main`. -/
structure Layout where
  separation1 : Int
  separation2 : Int
  line1y : Int
  line2y : Int
  startx : Int
  starty : Int
  deriving DecidableEq, Repr

/-- The values the source gives to the layout variables. -/
def simLayout : Layout :=
  { separation1 := 20, separation2 := 25, line1y := 25, line2y := 12, startx := 0, starty := 30 }

/-- The source declares `uint32_t numStaNodes = 9`. -/
def numStaNodes : Nat := 9

/-- The ns-3 `Vector (x, y, z)`. -/
structure Vector where
  x : Int
  y : Int
  z : Int
  deriving DecidableEq, Repr

/-- The four variables `W1X, W1Y, W2X, W2Y`. -/
structure WormholeCoords where
  W1X : Int
  W1Y : Int
  W2X : Int
  W2Y : Int
  deriving DecidableEq, Repr

/-- Failures a scenario selection could report. The source has no statement that raises one. -/
inductive SelectionError where
  | ConfigurationError
  deriving DecidableEq, Repr

/-- The `if (scenario == 1) ... else ...` block: both arms assign the four variables. -/
def scenarioCoords (L : Layout) (selector : Int) : WormholeCoords :=
  if selector = 1 then
    { W1X := L.startx, W1Y := L.starty - 100, W2X := L.startx + 130, W2Y := L.starty - 100 }
  else
    { W1X := L.startx - 10, W1Y := L.starty - 10, W2X := L.startx + 110, W2Y := L.starty - 10 }

/-- Scenario selection as a fallible operation: the block above always completes, so the
    result is always `ok`. -/
def selectScenario (L : Layout) (selector : Int) : Except SelectionError WormholeCoords :=
  Except.ok (scenarioCoords L selector)

deriving instance DecidableEq for Except

/-! ## The `uint8_t` counting loop -/

/-- Ways a run of the model can stop without a result. -/
inductive Fault where
  | outOfFuel
  | badIndex
  | addressOverflow
  | badContainerSize
  deriving DecidableEq, Repr

/-- The loop `for (uint8_t i = start; i < bound; i++) body`: the counter wraps at 256, so the
    loop is driven by fuel. -/
def forUint8 {σ : Type} (bound : Nat) (body : Nat → σ → Except Fault σ) :
    Nat → Nat → σ → Except Fault σ
  | 0, _, _ => Except.error Fault.outOfFuel
  | fuel + 1, i, st =>
    if i < bound then
      match body i st with
      | Except.ok st1 => forUint8 bound body fuel ((i + 1) % 256) st1
      | Except.error e => Except.error e
    else Except.ok st

/-! ## The position allocation loop -/

/-- The `switch (i)` of the position allocation loop: `some v` when an arm adds `v` to
    `positionAlloc`, `none` for the `default` arm, which only prints. -/
def positionCase (L : Layout) (W : WormholeCoords) (i : Nat) : Option Vector :=
  if i = 0 then some ⟨L.startx, L.starty, 0⟩
  else if 1 ≤ i ∧ i ≤ 3 then some ⟨L.startx + L.separation2 * (i : Int), L.starty + L.line2y, 0⟩
  else if 4 ≤ i ∧ i ≤ 7 then
    some ⟨L.startx - ((i : Int) - 4) * L.separation1 + 20, L.starty - L.line1y, 0⟩
  else if i = 8 then some ⟨L.startx + 100, L.starty, 0⟩
  else if i = 9 then some ⟨W.W1X, W.W1Y, 0⟩
  else if i = 10 then some ⟨W.W2X, W.W2Y, 0⟩
  else none

/-- State of the position allocation loop: the `ListPositionAllocator` contents and the
    indices reported on `std::cout` by the `default` arm. -/
structure AllocState where
  positions : List Vector
  notInRange : List Nat
  deriving DecidableEq, Repr

/-- One iteration of the position allocation loop. -/
def allocBody (L : Layout) (W : WormholeCoords) (i : Nat) (st : AllocState) :
    Except Fault AllocState :=
  match positionCase L W i with
  | some v => Except.ok { st with positions := st.positions ++ [v] }
  | none => Except.ok { st with notInRange := st.notInRange ++ [i] }

/-- The loop `for (uint8_t i = 0; i < numStaNodes+2; i++) switch (i) ...`. -/
def positionAlloc (L : Layout) (W : WormholeCoords) (fuel : Nat) : Except Fault AllocState :=
  forUint8 (numStaNodes + 2) (allocBody L W) fuel 0 { positions := [], notInRange := [] }

/-! ## Nodes, devices and addresses (container-level model of the ns-3 helpers) -/

/-- A `NodeContainer`: the ids of the nodes it holds, in insertion order. -/
abbrev NodeContainer := List Nat

/-- The two device classes the source installs. -/
inductive DeviceKind where
  | wifi
  | pointToPoint
  deriving DecidableEq, Repr

/-- A net device: the node it was added to, its class and the channel object it is attached to. -/
structure NetDevice where
  node : Nat
  kind : DeviceKind
  channel : Nat
  deriving DecidableEq, Repr

/-- Simulator-wide state the helpers act on: how many nodes and channels exist and every
    device added to a node so far, in creation order. -/
structure World where
  nodeCount : Nat
  channelCount : Nat
  devices : List NetDevice
  deriving DecidableEq, Repr

/-- The call `NodeContainer::Create (n)`: `n` fresh nodes, numbered in creation order. -/
def World.Create (w : World) (n : Nat) : World × NodeContainer :=
  ({ w with nodeCount := w.nodeCount + n }, (List.range n).map (fun k => w.nodeCount + k))

/-- The call `channel.Create ()`: a fresh channel object. -/
def World.createChannel (w : World) : World × Nat :=
  ({ w with channelCount := w.channelCount + 1 }, w.channelCount)

/-- The call `WifiHelper::Install (phy, mac, c)`: one wifi device per node of `c`, attached to
    the channel of `phy`, added to its node and returned in container order. -/
def World.wifiInstall (w : World) (phyChannel : Nat) (c : NodeContainer) :
    World × List NetDevice :=
  let devs := c.map (fun n => NetDevice.mk n DeviceKind.wifi phyChannel)
  ({ w with devices := w.devices ++ devs }, devs)

/-- The call `PointToPointHelper::Install (c)`: needs exactly two nodes, creates one
    point-to-point channel and one device on each of the two nodes. -/
def World.pointToPointInstall (w : World) (c : NodeContainer) :
    Except Fault (World × List NetDevice) :=
  match c with
  | [a, b] =>
    let devs := [NetDevice.mk a DeviceKind.pointToPoint w.channelCount,
                 NetDevice.mk b DeviceKind.pointToPoint w.channelCount]
    Except.ok ({ w with channelCount := w.channelCount + 1, devices := w.devices ++ devs }, devs)
  | _ => Except.error Fault.badContainerSize

/-- An IPv4 address or mask from its four octets. -/
def ipv4Address (a b c d : Nat) : Nat := a * 2 ^ 24 + b * 2 ^ 16 + c * 2 ^ 8 + d

/-- The `Ipv4AddressHelper` state: current network, mask and next host number. -/
structure Ipv4AddressHelper where
  network : Nat
  mask : Nat
  address : Nat
  deriving DecidableEq, Repr

/-- The call `SetBase (network, mask)`; the host numbering restarts at the default base `0.0.0.1`. -/
def SetBase (network mask : Nat) : Ipv4AddressHelper :=
  { network := network, mask := mask, address := 1 }

/-- An interface container entry: a device and the address assigned to it. -/
abbrev Ipv4Interface := NetDevice × Nat

/-- The call `Assign (devices)`: each device in turn gets network | host and the host number
    advances; running past the last usable host of the subnet aborts. -/
def Assign (h : Ipv4AddressHelper) :
    List NetDevice → Except Fault (Ipv4AddressHelper × List Ipv4Interface)
  | [] => Except.ok (h, [])
  | d :: ds =>
    if h.address ≤ (2 ^ 32 - 1 - h.mask) - 1 then
      match Assign { h with address := h.address + 1 } ds with
      | Except.ok (h1, rest) => Except.ok (h1, (d, h.network ||| h.address) :: rest)
      | Except.error e => Except.error e
    else Except.error Fault.addressOverflow

/-- An address lies in a subnet when masking it gives the network number. -/
def inSubnet (network mask addr : Nat) : Bool := addr &&& mask == network

/-- The call `Get (i)` on a container. -/
def Get {α : Type} (c : List α) (i : Nat) : Except Fault α :=
  match c.get? i with
  | some a => Except.ok a
  | none => Except.error Fault.badIndex

/-- The call `MobilityHelper::Install (c)` on a helper that was given no position allocator:
    the default allocator of the helper puts every node of `c` at the origin. -/
def mobilityInstall (c : NodeContainer) : List (Nat × Vector) :=
  c.map (fun n => (n, Vector.mk 0 0 0))

/-- The call `AnimationInterface::SetConstantPosition (node, x, y)`: writes `(x, y, 0)` as the
    position of the node (giving it a position if it had none). -/
def SetConstantPosition : List (Nat × Vector) → Nat → Int → Int → List (Nat × Vector)
  | [], node, x, y => [(node, Vector.mk x y 0)]
  | e :: ps, node, x, y =>
    if e.1 = node then (node, Vector.mk x y 0) :: ps
    else e :: SetConstantPosition ps node x y

/-! ## Applications -/

/-- The applications the source installs. -/
inductive Application where
  | udpServer (node : Nat) (port : Nat)
  | udpClient (node : Nat) (remoteAddress : Nat) (remotePort : Nat)
  deriving DecidableEq, Repr

/-- The node an application runs on. -/
def Application.node : Application → Nat
  | Application.udpServer n _ => n
  | Application.udpClient n _ _ => n

/-! ## Animation placement -/

/-- The `switch (i)` of the animation loop: `some (node, x, y)` for an arm that calls
    `SetConstantPosition (node, x, y)`, `none` for the `default` arm. -/
def animationCase (L : Layout) (W : WormholeCoords) (wifiStaNodes p2pNodes : NodeContainer)
    (i : Nat) : Except Fault (Option (Nat × Int × Int)) :=
  if i = 0 then
    match Get wifiStaNodes i with
    | Except.ok n => Except.ok (some (n, L.startx, L.starty))
    | Except.error e => Except.error e
  else if 1 ≤ i ∧ i ≤ 3 then
    match Get wifiStaNodes i with
    | Except.ok n => Except.ok (some (n, L.startx + L.separation2 * (i : Int), L.starty + L.line2y))
    | Except.error e => Except.error e
  else if 4 ≤ i ∧ i ≤ 7 then
    match Get wifiStaNodes i with
    | Except.ok n =>
      Except.ok (some (n, L.startx + ((i : Int) - 4) * L.separation1 + 20, L.starty - L.line1y))
    | Except.error e => Except.error e
  else if i = 8 then
    match Get wifiStaNodes i with
    | Except.ok n => Except.ok (some (n, L.startx + 100, L.starty))
    | Except.error e => Except.error e
  else if i = 9 then
    match Get p2pNodes (i - 9) with
    | Except.ok n => Except.ok (some (n, W.W1X, W.W1Y))
    | Except.error e => Except.error e
  else if i = 10 then
    match Get p2pNodes (i - 9) with
    | Except.ok n => Except.ok (some (n, W.W2X, W.W2Y))
    | Except.error e => Except.error e
  else Except.ok none

/-- State of the animation loop: the `SetConstantPosition` calls made, the node positions
    they leave and the indices reported on `std::cout`. -/
structure AnimState where
  placed : List (Nat × Int × Int)
  nodePositions : List (Nat × Vector)
  notInRange : List Nat
  deriving DecidableEq, Repr

/-- One iteration of the animation loop. -/
def animBody (L : Layout) (W : WormholeCoords) (wifiStaNodes p2pNodes : NodeContainer)
    (i : Nat) (st : AnimState) : Except Fault AnimState :=
  match animationCase L W wifiStaNodes p2pNodes i with
  | Except.ok (some e) =>
    Except.ok { st with placed := st.placed ++ [e],
                        nodePositions := SetConstantPosition st.nodePositions e.1 e.2.1 e.2.2 }
  | Except.ok none => Except.ok { st with notInRange := st.notInRange ++ [i] }
  | Except.error e => Except.error e

/-- The loop `for (uint8_t i = 0; i < allNodes.GetN(); i++) switch (i) ...`. -/
def animationLoop (L : Layout) (W : WormholeCoords) (allNodes wifiStaNodes p2pNodes : NodeContainer)
    (mobility : List (Nat × Vector)) (fuel : Nat) : Except Fault AnimState :=
  forUint8 allNodes.length (animBody L W wifiStaNodes p2pNodes) fuel 0
    { placed := [], nodePositions := mobility, notInRange := [] }

/-! ## The build phase of `main` -/

/-- Everything the build phase of `main` leaves behind. `positions` is the content of
    `positionAlloc`, `mobility` the node positions right after `mobility.Install`,
    `animation` the `SetConstantPosition` calls in order and `nodePositions` the node positions
    after them. -/
structure Run where
  W : WormholeCoords
  allNodes : NodeContainer
  wifiStaNodes : NodeContainer
  p2pNodes : NodeContainer
  staDevices : List NetDevice
  p2pDevices : List NetDevice
  devices : List NetDevice
  positions : List Vector
  notInRange : List Nat
  mobility : List (Nat × Vector)
  nodePositions : List (Nat × Vector)
  p2pInterfaces : List Ipv4Interface
  staInterface : List Ipv4Interface
  serverApps : List Application
  clientApps : List Application
  animation : List (Nat × Int × Int)
  animationNotInRange : List Nat
  deriving DecidableEq, Repr

/-- The build phase of `main`, statement by statement, for a layout and a value of the
    variable `scenario` (the source fixes `scenario = 2`). -/
def main (L : Layout) (selector : Int) (fuel : Nat) : Except Fault Run := do
  let W := scenarioCoords L selector
  let w0 : World := { nodeCount := 0, channelCount := 0, devices := [] }
  -- wifiStaNodes.Create (numStaNodes); allNodes.Add (wifiStaNodes);
  let (w1, wifiStaNodes) := w0.Create numStaNodes
  let allNodes1 : NodeContainer := [] ++ wifiStaNodes
  -- phy.SetChannel (channel.Create ()); phy2.SetChannel (channel.Create ());
  let (w2, phy) := w1.createChannel
  let (w3, phy2) := w2.createChannel
  -- p2pNodes.Create (2); allNodes.Add (p2pNodes);
  let (w4, p2pNodes) := w3.Create 2
  let allNodes := allNodes1 ++ p2pNodes
  -- staDevices = wifi.Install (phy, mac, allNodes);
  let (w5, staDevices) := w4.wifiInstall phy allNodes
  -- p2pDevices = wifi2.Install (phy2, mac, p2pNodes);
  let (w6, _) := w5.wifiInstall phy2 p2pNodes
  -- p2pDevices = pointToPoint.Install (p2pNodes);
  let (w7, p2pDevices) ← w6.pointToPointInstall p2pNodes
  -- position allocation loop; positionAlloc is not used after it
  let alloc ← positionAlloc L W fuel
  -- mobility.SetMobilityModel (...); mobility.Install (allNodes);
  let mobility := mobilityInstall allNodes
  -- ipv4.SetBase ("10.1.2.0", "255.255.255.0"); p2pInterfaces = ipv4.Assign (p2pDevices);
  let (_, p2pInterfaces) ← Assign (SetBase (ipv4Address 10 1 2 0) (ipv4Address 255 255 255 0)) p2pDevices
  -- ipv4.SetBase ("10.1.1.0", "255.255.255.0"); staInterface = ipv4.Assign (staDevices);
  let (_, staInterface) ← Assign (SetBase (ipv4Address 10 1 1 0) (ipv4Address 255 255 255 0)) staDevices
  -- UdpServerHelper server (9); serverApps = server.Install (allNodes.Get (numStaNodes-1));
  let serverNode ← Get allNodes (numStaNodes - 1)
  let serverApps := [Application.udpServer serverNode 9]
  -- UdpClientHelper client (staInterface.GetAddress (0), 9); clientApps = client.Install (allNodes);
  let remote ← Get staInterface 0
  let clientApps := allNodes.map (fun n => Application.udpClient n remote.2 9)
  -- animation loop
  let anim ← animationLoop L W allNodes wifiStaNodes p2pNodes mobility fuel
  return { W := W, allNodes := allNodes, wifiStaNodes := wifiStaNodes, p2pNodes := p2pNodes,
           staDevices := staDevices, p2pDevices := p2pDevices, devices := w7.devices,
           positions := alloc.positions, notInRange := alloc.notInRange, mobility := mobility,
           nodePositions := anim.nodePositions,
           p2pInterfaces := p2pInterfaces, staInterface := staInterface,
           serverApps := serverApps, clientApps := clientApps,
           animation := anim.placed, animationNotInRange := anim.notInRange }

/-! ## Scheduled times -/

/-- The call `Seconds (s)`: a simulation time, in seconds. -/
def Seconds (s : ℚ) : ℚ := s

/-- The argument of `serverApps.Start`. -/
def serverStart : ℚ := Seconds 1.0

/-- The argument of `serverApps.Stop`. -/
def serverStop : ℚ := Seconds 10.0

/-- The argument of `clientApps.Start`. -/
def clientStart : ℚ := Seconds 2.0

/-- The argument of `clientApps.Stop`. -/
def clientStop : ℚ := Seconds 10.0

/-- The argument of `aodv.PrintRoutingTableAllAt`. -/
def routingTableDump : ℚ := Seconds 2.5

/-- The argument of `Simulator::Stop`. -/
def simulatorStop : ℚ := Seconds 10

/-- The route-tracking event of `EnableIpv4RouteTracking (file, start, stop, interval)`: fired
    first at `start`; each firing at a time not after `stop` records the routes and schedules
    the next firing one `interval` later, a firing after `stop` does nothing more. The list
    holds the times at which routes are recorded. -/
def trackIpv4Route (stop interval : ℚ) : Nat → ℚ → List ℚ
  | 0, _ => []
  | fuel + 1, now =>
    if stop < now then [] else now :: trackIpv4Route stop interval fuel (now + interval)

/-- The polls of `anim.EnableIpv4RouteTracking (.., Seconds(2.5), Seconds(5), Seconds(0.25))`. -/
def routeTrackingPolls (fuel : Nat) : List ℚ :=
  trackIpv4Route (Seconds 5) (Seconds 0.25) fuel (Seconds 2.5)

/-! ## Distances -/

/-- Squared Euclidean distance between two positions (their `z` is always 0). -/
def distSq (p q : Vector) : Int := (p.x - q.x) ^ 2 + (p.y - q.y) ^ 2 + (p.z - q.z) ^ 2

/-- The position a node has when the build phase ends, if any. -/
def Run.positionOf (r : Run) (node : Nat) : Option Vector :=
  (r.nodePositions.find? (fun e => e.1 == node)).map (fun e => e.2)

/-- Squared distance between the positions of two nodes of a run. -/
def Run.nodeDistSq (r : Run) (a b : Nat) : Option Int :=
  match r.positionOf a, r.positionOf b with
  | some p, some q => some (distSq p q)
  | _, _ => none

/-- Whether a squared distance is known and at most a bound. -/
def sqAtMost (bound : Int) : Option Int → Bool
  | some d => decide (d ≤ bound)
  | none => false

/-- Whether a squared distance is known and above a bound. -/
def sqAbove (bound : Int) : Option Int → Bool
  | some d => decide (bound < d)
  | none => false

/-! ## Observations on a run -/

/-- The devices of one class that were added to one node. -/
def devicesOn (ds : List NetDevice) (kind : DeviceKind) (node : Nat) : List NetDevice :=
  ds.filter (fun d => d.kind == kind && d.node == node)

/-- The devices of one class. -/
def devicesOfKind (ds : List NetDevice) (kind : DeviceKind) : List NetDevice :=
  ds.filter (fun d => d.kind == kind)

/-- The address `staInterface` holds for the wifi device of a node, if any. -/
def Run.wirelessAddressOf (r : Run) (node : Nat) : Option Nat :=
  (r.staInterface.find? (fun e => e.1.node == node)).map (fun e => e.2)

/-- Every interface the address helper configured. -/
def Run.interfaces (r : Run) : List Ipv4Interface := r.p2pInterfaces ++ r.staInterface

/-- The interfaces of a node whose address lies in a subnet. -/
def interfacesIn (ifs : List Ipv4Interface) (network mask node : Nat) : List Ipv4Interface :=
  ifs.filter (fun e => e.1.node == node && inSubnet network mask e.2)

/-- The tunnel subnet `10.1.2.0`. -/
def p2pNetwork : Nat := ipv4Address 10 1 2 0

/-- The wireless subnet `10.1.1.0`. -/
def staNetwork : Nat := ipv4Address 10 1 1 0

/-- The mask `255.255.255.0` used for both subnets. -/
def netmask : Nat := ipv4Address 255 255 255 0

/-- The least element of a list of integers. -/
def minOfList : List Int → Option Int
  | [] => none
  | x :: xs => some (xs.foldl min x)

/-- Squared distances from a node to each ordinary node (those of `wifiStaNodes`), in order. -/
def Run.ordinaryDistSq (r : Run) (e : Nat) : List Int :=
  r.wifiStaNodes.filterMap (fun o => r.nodeDistSq e o)

/-- Squared distance from a node to its nearest ordinary node. -/
def Run.nearestOrdinarySq (r : Run) (e : Nat) : Option Int := minOfList (r.ordinaryDistSq e)

/-- The links drawn in the topology diagram of the header comment:
    n0-n1-n2-n3-n8 along the bottom and n0-n4-n5-n6-n7-n8 along the top. -/
def adjacentPairs : List (Nat × Nat) :=
  [(0, 1), (1, 2), (2, 3), (3, 8), (0, 4), (4, 5), (5, 6), (6, 7), (7, 8)]

/-! ## The result of the build phase in closed form -/

/-- The devices `wifi.Install (phy, mac, allNodes)` returns: one per node 0..10 on channel 0. -/
def staDevicesOf : List NetDevice :=
  (List.range 11).map (fun n => NetDevice.mk n DeviceKind.wifi 0)

/-- The value `main` computes, written out: used to evaluate `main` for every layout,
    selector and sufficient fuel at once. -/
def mainResult (L : Layout) (selector : Int) : Run :=
  let W := scenarioCoords L selector
  { W := W,
    allNodes := List.range 11,
    wifiStaNodes := List.range 9,
    p2pNodes := [9, 10],
    staDevices := staDevicesOf,
    p2pDevices := [⟨9, DeviceKind.pointToPoint, 2⟩, ⟨10, DeviceKind.pointToPoint, 2⟩],
    devices := staDevicesOf ++ [⟨9, DeviceKind.wifi, 1⟩, ⟨10, DeviceKind.wifi, 1⟩] ++
      [⟨9, DeviceKind.pointToPoint, 2⟩, ⟨10, DeviceKind.pointToPoint, 2⟩],
    positions := (List.range 11).filterMap (positionCase L W),
    notInRange := [],
    mobility := (List.range 11).map (fun n => (n, Vector.mk 0 0 0)),
    nodePositions := [(0, ⟨L.startx, L.starty, 0⟩),
      (1, ⟨L.startx + L.separation2 * 1, L.starty + L.line2y, 0⟩),
      (2, ⟨L.startx + L.separation2 * 2, L.starty + L.line2y, 0⟩),
      (3, ⟨L.startx + L.separation2 * 3, L.starty + L.line2y, 0⟩),
      (4, ⟨L.startx + (4 - 4) * L.separation1 + 20, L.starty - L.line1y, 0⟩),
      (5, ⟨L.startx + (5 - 4) * L.separation1 + 20, L.starty - L.line1y, 0⟩),
      (6, ⟨L.startx + (6 - 4) * L.separation1 + 20, L.starty - L.line1y, 0⟩),
      (7, ⟨L.startx + (7 - 4) * L.separation1 + 20, L.starty - L.line1y, 0⟩),
      (8, ⟨L.startx + 100, L.starty, 0⟩),
      (9, ⟨W.W1X, W.W1Y, 0⟩),
      (10, ⟨W.W2X, W.W2Y, 0⟩)],
    p2pInterfaces := [(⟨9, DeviceKind.pointToPoint, 2⟩, ipv4Address 10 1 2 1),
                      (⟨10, DeviceKind.pointToPoint, 2⟩, ipv4Address 10 1 2 2)],
    staInterface := (List.range 11).map (fun n =>
      (NetDevice.mk n DeviceKind.wifi 0, ipv4Address 10 1 1 (n + 1))),
    serverApps := [Application.udpServer 8 9],
    clientApps := (List.range 11).map (fun n => Application.udpClient n (ipv4Address 10 1 1 1) 9),
    animation := [(0, L.startx, L.starty),
      (1, L.startx + L.separation2 * 1, L.starty + L.line2y),
      (2, L.startx + L.separation2 * 2, L.starty + L.line2y),
      (3, L.startx + L.separation2 * 3, L.starty + L.line2y),
      (4, L.startx + (4 - 4) * L.separation1 + 20, L.starty - L.line1y),
      (5, L.startx + (5 - 4) * L.separation1 + 20, L.starty - L.line1y),
      (6, L.startx + (6 - 4) * L.separation1 + 20, L.starty - L.line1y),
      (7, L.startx + (7 - 4) * L.separation1 + 20, L.starty - L.line1y),
      (8, L.startx + 100, L.starty),
      (9, W.W1X, W.W1Y),
      (10, W.W2X, W.W2Y)],
    animationNotInRange := [] }

/-- The tunnel devices `pointToPoint.Install (p2pNodes)` returns. -/
def p2pDevicesOf : List NetDevice :=
  [⟨9, DeviceKind.pointToPoint, 2⟩, ⟨10, DeviceKind.pointToPoint, 2⟩]

/-- With fuel 12 or more the position allocation loop returns the positions of the indices
    0..10 in order and reports nothing. -/
theorem positionAlloc_eq (L : Layout) (W : WormholeCoords) (k : Nat) :
    positionAlloc L W (k + 12) =
      Except.ok ⟨(List.range 11).filterMap (positionCase L W), []⟩ := rfl

/-- With fuel 12 or more, `main` returns, and returns `mainResult`. -/
theorem main_eq (L : Layout) (selector : Int) (k : Nat) :
    main L selector (k + 12) = Except.ok (mainResult L selector) := by
  unfold main
  simp only [positionAlloc_eq]
  rfl

/-- A squared distance not above `R^2` is a distance not above `R`. -/
theorem sqrt_le_of_sq_le (d : Int) (R : ℝ) (hR : 0 ≤ R) (h : (d : ℝ) ≤ R ^ 2) :
    Real.sqrt (d : ℝ) ≤ R :=
  (Real.sqrt_le_left hR).2 h

/-- A squared distance above `R^2` is a distance above `R`. -/
theorem lt_sqrt_of_sq_lt (d : Int) (R : ℝ) (hR : 0 ≤ R) (h : R ^ 2 < (d : ℝ)) :
    R < Real.sqrt (d : ℝ) :=
  (Real.lt_sqrt hR).2 h

theorem sqAtMost_spec (bound : Int) (o : Option Int) (h : sqAtMost bound o = true) :
    ∃ d, o = some d ∧ d ≤ bound := by
  cases o with
  | none => simp [sqAtMost] at h
  | some d => exact ⟨d, rfl, by simpa [sqAtMost] using h⟩

theorem sqAbove_spec (bound : Int) (o : Option Int) (h : sqAbove bound o = true) :
    ∃ d, o = some d ∧ bound < d := by
  cases o with
  | none => simp [sqAbove] at h
  | some d => exact ⟨d, rfl, by simpa [sqAbove] using h⟩

/-! ## C4 : unknown scenario selectors -/

/-- C4 (as stated, refuted): the selector 3 is neither of the two defined ids, yet scenario
    selection does not fail: it returns coordinates, and they are those of selector 2
    (IN_RANGE); so it is false that every selector other than 1 and 2 is rejected. -/
theorem C4_unknown_selector_falls_back :
    selectScenario simLayout 3 = Except.ok ⟨-10, 20, 110, 20⟩ ∧
    selectScenario simLayout 3 = selectScenario simLayout 2 ∧
    ¬ (∀ s : Int, s ≠ 1 → s ≠ 2 → ∃ e, selectScenario simLayout s = Except.error e) := by
  refine ⟨by decide, by decide, ?_⟩
  intro h
  obtain ⟨e, he⟩ := h 3 (by decide) (by decide)
  simp [selectScenario] at he

/-- C4 (amended): every selector other than 1 is accepted and yields the IN_RANGE coordinates
    `(startx-10, starty-10)` and `(startx+110, starty-10)`, selector 1 yields the OUT_OF_RANGE
    coordinates `(startx, starty-100)` and `(startx+130, starty-100)`, and the build phase
    places the two tunnel endpoints at the selected coordinates. -/
theorem C4_selector_else_branch (L : Layout) (s : Int) (k : Nat) (hs : s ≠ 1) :
    selectScenario L s =
      Except.ok ⟨L.startx - 10, L.starty - 10, L.startx + 110, L.starty - 10⟩ ∧
    selectScenario L 1 =
      Except.ok ⟨L.startx, L.starty - 100, L.startx + 130, L.starty - 100⟩ ∧
    ∃ r, main L s (k + 12) = Except.ok r ∧
      r.positions.get? 9 = some ⟨L.startx - 10, L.starty - 10, 0⟩ ∧
      r.positions.get? 10 = some ⟨L.startx + 110, L.starty - 10, 0⟩ := by
  refine ⟨by simp [selectScenario, scenarioCoords, hs], by simp [selectScenario, scenarioCoords],
    mainResult L s, main_eq L s k, ?_, ?_⟩
  · show some (Vector.mk (scenarioCoords L s).W1X (scenarioCoords L s).W1Y 0) = _
    simp [scenarioCoords, hs]
  · show some (Vector.mk (scenarioCoords L s).W2X (scenarioCoords L s).W2Y 0) = _
    simp [scenarioCoords, hs]

/-- C4 (amended), at the unknown selector 3 with the layout of the source. -/
theorem C4_selector_else_branch_witness :
    (3 : Int) ≠ 1 ∧
    selectScenario simLayout 3 = Except.ok ⟨0 - 10, 30 - 10, 0 + 110, 30 - 10⟩ ∧
    ∃ r, main simLayout 3 (0 + 12) = Except.ok r ∧
      r.positions.get? 9 = some ⟨0 - 10, 30 - 10, 0⟩ ∧
      r.positions.get? 10 = some ⟨0 + 110, 30 - 10, 0⟩ :=
  ⟨by decide, (C4_selector_else_branch simLayout 3 0 (by decide)).1,
    (C4_selector_else_branch simLayout 3 0 (by decide)).2.2⟩

/-! ## C1 : the traffic flow -/

/-- C1 (evaluation of the code): for every layout and selector the build phase installs the
    server on node 8 only, but installs a client on each of the 11 nodes 0..10, and every client
    is given the remote address 10.1.1.1, which is the wireless address of node 0; the wireless
    address of the server node 8 is 10.1.1.9. So the flow from node 0 to node 8 named by the
    header comment is not what the code sets up. -/
theorem C1_clients_on_all_nodes_target_node0 (L : Layout) (selector : Int) (k : Nat) :
    ∃ r, main L selector (k + 12) = Except.ok r ∧
      r.serverApps = [Application.udpServer 8 9] ∧
      r.clientApps.length = 11 ∧
      r.clientApps.map Application.node = List.range 11 ∧
      r.clientApps =
        (List.range 11).map (fun n => Application.udpClient n (ipv4Address 10 1 1 1) 9) ∧
      r.wirelessAddressOf 0 = some (ipv4Address 10 1 1 1) ∧
      r.wirelessAddressOf 8 = some (ipv4Address 10 1 1 9) ∧
      ipv4Address 10 1 1 1 ≠ ipv4Address 10 1 1 9 :=
  ⟨mainResult L selector, main_eq L selector k, rfl, rfl, rfl, rfl, rfl, rfl, by decide⟩

/-! ## C2 : devices per node -/

/-- C2 (as stated, refuted): in the run of the source (`scenario = 2`) node 9 and node 10 each
    carry two wifi devices, not one, and the run has 13 wifi devices, not 11. -/
theorem C2_endpoints_carry_two_wifi_devices :
    ∃ r, main simLayout 2 12 = Except.ok r ∧
      (devicesOn r.devices DeviceKind.wifi 9).length = 2 ∧
      (devicesOn r.devices DeviceKind.wifi 10).length = 2 ∧
      (devicesOfKind r.devices DeviceKind.wifi).length = 13 :=
  ⟨mainResult simLayout 2, main_eq simLayout 2 0, rfl, rfl, rfl⟩

/-- C2 (amended): the build phase creates 11 nodes; `staDevices` holds exactly one wifi device
    per node 0..10, all on the first channel (11 devices); the endpoint nodes 9 and 10, and
    only they, carry a second wifi device, on the second channel (13 wifi devices in all),
    and exactly one point-to-point device each (2 tunnel devices in all, the ones kept in
    `p2pDevices`); no node 0..8 has a tunnel device. -/
theorem C2_devices_per_node (L : Layout) (selector : Int) (k : Nat) :
    ∃ r, main L selector (k + 12) = Except.ok r ∧
      r.allNodes = List.range 11 ∧
      r.staDevices = (List.range 11).map (fun n => NetDevice.mk n DeviceKind.wifi 0) ∧
      r.staDevices.length = 11 ∧
      r.devices = r.staDevices ++ [⟨9, DeviceKind.wifi, 1⟩, ⟨10, DeviceKind.wifi, 1⟩] ++
        r.p2pDevices ∧
      (List.range 11).map (fun n => (devicesOn r.staDevices DeviceKind.wifi n).length) =
        [1, 1, 1, 1, 1, 1, 1, 1, 1, 1, 1] ∧
      (List.range 11).map (fun n => (devicesOn r.devices DeviceKind.wifi n).length) =
        [1, 1, 1, 1, 1, 1, 1, 1, 1, 2, 2] ∧
      (devicesOfKind r.devices DeviceKind.wifi).length = 13 ∧
      (List.range 11).map (fun n => (devicesOn r.devices DeviceKind.pointToPoint n).length) =
        [0, 0, 0, 0, 0, 0, 0, 0, 0, 1, 1] ∧
      devicesOfKind r.devices DeviceKind.pointToPoint = r.p2pDevices ∧
      r.p2pDevices.length = 2 ∧
      r.p2pDevices.map (fun d => d.node) = [9, 10] :=
  ⟨mainResult L selector, main_eq L selector k, rfl, rfl, rfl, rfl, rfl, rfl, rfl, rfl, rfl, rfl,
    rfl⟩

/-! ## C7 : address assignment -/

/-- No address lies in both subnets. -/
theorem subnets_disjoint (a : Nat) :
    ¬ (inSubnet p2pNetwork netmask a = true ∧ inSubnet staNetwork netmask a = true) := by
  intro h
  obtain ⟨h1, h2⟩ := h
  simp only [inSubnet, beq_iff_eq] at h1 h2
  rw [h1] at h2
  revert h2
  decide

/-- C7: the two point-to-point devices get 10.1.2.1 and 10.1.2.2, the 11 devices of
    `staDevices` get 10.1.1.1 .. 10.1.1.11 in order; the former lie in 10.1.2.0/24, the latter in
    10.1.1.0/24, and no address lies in both subnets; the addresses assigned in the tunnel
    subnet are exactly two and sit on nodes 9 and 10; every node has at most one address in
    each subnet. -/
theorem C7_address_assignment (L : Layout) (selector : Int) (k : Nat) :
    ∃ r, main L selector (k + 12) = Except.ok r ∧
      r.p2pInterfaces.map (fun e => e.1) = r.p2pDevices ∧
      r.p2pDevices.length = 2 ∧
      r.p2pDevices.all (fun d => d.kind == DeviceKind.pointToPoint) = true ∧
      r.p2pInterfaces.map (fun e => e.2) = [ipv4Address 10 1 2 1, ipv4Address 10 1 2 2] ∧
      r.staInterface.map (fun e => e.1) = r.staDevices ∧
      r.staDevices.length = 11 ∧
      r.staInterface.map (fun e => e.2) =
        (List.range 11).map (fun n => ipv4Address 10 1 1 (n + 1)) ∧
      r.p2pInterfaces.all (fun e => inSubnet p2pNetwork netmask e.2) = true ∧
      r.staInterface.all (fun e => inSubnet staNetwork netmask e.2) = true ∧
      (∀ a : Nat, ¬ (inSubnet p2pNetwork netmask a = true ∧ inSubnet staNetwork netmask a = true)) ∧
      (r.interfaces.filter (fun e => inSubnet p2pNetwork netmask e.2)).map (fun e => e.1.node) =
        [9, 10] ∧
      (List.range 11).map (fun n => (interfacesIn r.interfaces p2pNetwork netmask n).length) =
        [0, 0, 0, 0, 0, 0, 0, 0, 0, 1, 1] ∧
      (List.range 11).map (fun n => (interfacesIn r.interfaces staNetwork netmask n).length) =
        [1, 1, 1, 1, 1, 1, 1, 1, 1, 1, 1] :=
  ⟨mainResult L selector, main_eq L selector k, rfl, rfl, rfl, rfl, rfl, rfl, rfl, rfl, rfl,
    subnets_disjoint, rfl, rfl, rfl⟩

/-! ## C8 : scheduled times -/

/-- With fuel 12 or more the route-tracking event records routes at 2.5 + 0.25 j seconds,
    j = 0..10, and then stops. -/
theorem routeTrackingPolls_eq (k : Nat) :
    routeTrackingPolls (k + 12) =
      [2.5, 2.75, 3, 3.25, 3.5, 3.75, 4, 4.25, 4.5, 4.75, 5] := by
  unfold routeTrackingPolls
  simp only [trackIpv4Route, Seconds]
  norm_num

/-- C8: the routing-table dump (2.5 s) and every route-tracking poll (2.5 + 0.25 j s, j = 0..10,
    the last at 5 s) fall strictly after the client start (2.0 s) and strictly before the client
    stop (10.0 s); every scheduled time is non-negative; the server starts (1.0 s) no later than
    the client; the simulator stop (10 s) is not earlier than the stop of either application. -/
theorem C8_observation_times (k : Nat) :
    clientStart = 2 ∧ clientStop = 10 ∧ routingTableDump = 2.5 ∧
    clientStart < routingTableDump ∧ routingTableDump < clientStop ∧
    routeTrackingPolls (k + 12) = (List.range 11).map (fun (j : Nat) => (2.5 : ℚ) + 0.25 * (j : ℚ)) ∧
    (routeTrackingPolls (k + 12)).length = 11 ∧
    (∀ j : Fin 11, ∃ t, (routeTrackingPolls (k + 12)).get? j = some t ∧
      t = 2.5 + 0.25 * ((j : Nat) : ℚ) ∧ clientStart < t ∧ t < clientStop ∧ t ≤ 5) ∧
    (0 ≤ serverStart ∧ 0 ≤ serverStop ∧ 0 ≤ clientStart ∧ 0 ≤ clientStop ∧
      0 ≤ routingTableDump ∧ 0 ≤ simulatorStop) ∧
    serverStart = 1 ∧ serverStart ≤ clientStart ∧
    simulatorStop = 10 ∧ clientStop ≤ simulatorStop ∧ serverStop ≤ simulatorStop := by
  rw [routeTrackingPolls_eq]
  have hcs : clientStart = 2 := by norm_num [clientStart, Seconds]
  have hce : clientStop = 10 := by norm_num [clientStop, Seconds]
  have hd : routingTableDump = 2.5 := by norm_num [routingTableDump, Seconds]
  have hss : serverStart = 1 := by norm_num [serverStart, Seconds]
  have hse : serverStop = 10 := by norm_num [serverStop, Seconds]
  have hst : simulatorStop = 10 := by norm_num [simulatorStop, Seconds]
  rw [hcs, hce, hd, hss, hse, hst]
  refine ⟨rfl, rfl, rfl, by norm_num, by norm_num, ?_, rfl, ?_,
    by norm_num, rfl, by norm_num, rfl, by norm_num, by norm_num⟩
  · simp [List.range, List.range.loop]; norm_num
  · intro j
    fin_cases j <;> refine ⟨_, rfl, ?_⟩ <;> norm_num

/-! ## C5 : indices of the position model -/

/-- C6: for one layout and any two scenario selectors the build phase returns in both cases,
    with the same 11 nodes, the same role partition (nodes 0..8 in `wifiStaNodes`, nodes 9 and
    10 in `p2pNodes`, which alone carry the tunnel devices), the same devices, addresses and
    applications, and the same coordinates for every ordinary node 0..8, in the position list,
    in the `SetConstantPosition` calls and in the positions the nodes end at; only the
    coordinates of nodes 9 and 10 depend on the selector. -/
theorem C6_scenario_changes_only_endpoints (L : Layout) (s1 s2 : Int) (k : Nat) :
    ∃ r1 r2, main L s1 (k + 12) = Except.ok r1 ∧ main L s2 (k + 12) = Except.ok r2 ∧
      r1.allNodes = List.range 11 ∧ r2.allNodes = List.range 11 ∧
      r1.allNodes.length = 11 ∧ r2.allNodes.length = 11 ∧
      r1.wifiStaNodes = List.range 9 ∧ r2.wifiStaNodes = List.range 9 ∧
      r1.p2pNodes = [9, 10] ∧ r2.p2pNodes = [9, 10] ∧
      r1.p2pDevices.map (fun d => d.node) = [9, 10] ∧
      r2.p2pDevices.map (fun d => d.node) = [9, 10] ∧
      r1.devices = r2.devices ∧
      r1.staInterface = r2.staInterface ∧ r1.p2pInterfaces = r2.p2pInterfaces ∧
      r1.serverApps = r2.serverApps ∧ r1.clientApps = r2.clientApps ∧
      r1.positions.length = 11 ∧ r2.positions.length = 11 ∧
      r1.positions.take 9 = r2.positions.take 9 ∧
      r1.mobility = r2.mobility ∧
      r1.animation.length = 11 ∧ r2.animation.length = 11 ∧
      r1.animation.take 9 = r2.animation.take 9 ∧
      r1.nodePositions.map (fun e => e.1) = List.range 11 ∧
      r2.nodePositions.map (fun e => e.1) = List.range 11 ∧
      r1.nodePositions.take 9 = r2.nodePositions.take 9 ∧
      (∀ i : Fin 9, r1.positionOf i = r2.positionOf i ∧ (r1.positionOf i).isSome = true) :=
  ⟨mainResult L s1, mainResult L s2, main_eq L s1 k, main_eq L s2 k, rfl, rfl, rfl, rfl, rfl, rfl,
    rfl, rfl, rfl, rfl, rfl, rfl, rfl, rfl, rfl, rfl, rfl, rfl, rfl, rfl, rfl, rfl, rfl, rfl, rfl,
    by intro i; fin_cases i <;> exact ⟨rfl, rfl⟩⟩

/-! ## C10 : animation placement against simulation placement -/

/-- C10: for every layout and selector, both loops run over the 11 indices, and for every index
    outside 4..7 the coordinates passed to `SetConstantPosition` for node `i` are the `x` and `y`
    of the `i`-th entry of the position list. On the top row (`i = 4 + j`, `j = 0..3`) the `y`
    coordinates agree (`starty - line1y`) while the position list has
    `x = startx + 20 - j*separation1` and the animation `x = startx + 20 + j*separation1`: equal
    at `i = 4`, `2*j*separation1` apart at `i = 5, 6, 7` (40, 80 and 120 with the layout of the
    source). -/
theorem C10_animation_vs_simulation (L : Layout) (selector : Int) (k : Nat) :
    ∃ r, main L selector (k + 12) = Except.ok r ∧
      r.animation.length = 11 ∧ r.positions.length = 11 ∧
      r.animationNotInRange = [] ∧ r.notInRange = [] ∧
      (∀ i : Fin 11, ∃ x y v,
        r.animation.get? i = some ((i : Nat), x, y) ∧
        r.positions.get? i = some v ∧
        y = v.y ∧ (x = v.x ∨ (4 ≤ (i : Nat) ∧ (i : Nat) ≤ 7))) ∧
      (∀ j : Fin 4, ∃ x y v,
        r.animation.get? (4 + j) = some (4 + (j : Nat), x, y) ∧
        r.positions.get? (4 + j) = some v ∧
        x = L.startx + 20 + (j : Int) * L.separation1 ∧
        v.x = L.startx + 20 - (j : Int) * L.separation1 ∧
        y = L.starty - L.line1y ∧ v.y = L.starty - L.line1y ∧
        x - v.x = 2 * (j : Int) * L.separation1) ∧
      ((r.animation.get? 4).map (fun e => (e.2.1, e.2.2)) =
        (r.positions.get? 4).map (fun v => (v.x, v.y))) ∧
      ∃ r0, main simLayout selector (k + 12) = Except.ok r0 ∧
        ((r0.animation.drop 4).take 4).map (fun e => e.2.1) = [20, 40, 60, 80] ∧
        ((r0.positions.drop 4).take 4).map (fun v => v.x) = [20, 0, -20, -40] := by
  refine ⟨mainResult L selector, main_eq L selector k, rfl, rfl, rfl, rfl, ?_, ?_, ?_,
    mainResult simLayout selector, main_eq simLayout selector k, ?_, ?_⟩
  · intro i
    fin_cases i <;> refine ⟨_, _, _, rfl, rfl, rfl, ?_⟩ <;> simp
  · intro j
    fin_cases j <;> refine ⟨_, _, _, rfl, rfl, ?_, ?_, rfl, rfl, ?_⟩ <;> simp <;> ring
  · show some (L.startx + (4 - 4) * L.separation1 + 20, L.starty - L.line1y) =
      some (L.startx - (((4 : Nat) : Int) - 4) * L.separation1 + 20, L.starty - L.line1y)
    simp
  · rfl
  · rfl

/-! ## C3 : tunnel endpoints against the radio range -/

/-- C3 (as stated, refuted): with the layout of the source and OUT_OF_RANGE (selector 1) the
    nearest ordinary node of endpoint 9 is at squared distance 6025 and that of endpoint 10 at
    squared distance 8125, not 5625 and 10900. -/
theorem C3_out_of_range_nearest_distances :
    ∃ rOut, main simLayout 1 12 = Except.ok rOut ∧
      rOut.ordinaryDistSq 9 = [10000, 13169, 15044, 18169, 6025, 7225, 9225, 12025, 20000] ∧
      rOut.ordinaryDistSq 10 =
        [26900, 23569, 18944, 15569, 17725, 13725, 10525, 8125, 10900] ∧
      rOut.nearestOrdinarySq 9 = some 6025 ∧ rOut.nearestOrdinarySq 10 = some 8125 ∧
      rOut.nearestOrdinarySq 9 ≠ some 5625 ∧ rOut.nearestOrdinarySq 10 ≠ some 10900 :=
  ⟨mainResult simLayout 1, main_eq simLayout 1 0, rfl, rfl, rfl, rfl, by decide, by decide⟩

/-- C3 (amended): with the layout of the source, the two scenarios place both tunnel endpoints
    at different coordinates. Under IN_RANGE (selector 2) the nearest ordinary node of endpoint 9
    is node 0 and that of endpoint 10 is node 8, each 10 units away in `x` and in `y`, squared
    distance 200; under OUT_OF_RANGE (selector 1) the squared nearest distances are 6025 and
    8125. Hence for every radio range `R ≥ 0` with `200 ≤ R^2 < 6025` each endpoint is within
    Euclidean distance `R` of its nearest ordinary node under IN_RANGE and farther than `R` from
    its nearest ordinary node under OUT_OF_RANGE. -/
theorem C3_endpoint_range_separation (R : ℝ) (hR : 0 ≤ R) (hlo : 200 ≤ R ^ 2)
    (hhi : R ^ 2 < 6025) :
    ∃ rOut rIn, main simLayout 1 12 = Except.ok rOut ∧ main simLayout 2 12 = Except.ok rIn ∧
      rOut.positionOf 9 = some ⟨0, -70, 0⟩ ∧ rIn.positionOf 9 = some ⟨-10, 20, 0⟩ ∧
      rOut.positionOf 10 = some ⟨130, -70, 0⟩ ∧ rIn.positionOf 10 = some ⟨110, 20, 0⟩ ∧
      rOut.positionOf 9 ≠ rIn.positionOf 9 ∧ rOut.positionOf 10 ≠ rIn.positionOf 10 ∧
      rIn.positionOf 0 = some ⟨-10 + 10, 20 + 10, 0⟩ ∧
      rIn.positionOf 8 = some ⟨110 - 10, 20 + 10, 0⟩ ∧
      rIn.ordinaryDistSq 9 = [200, 1709, 4084, 7709, 1125, 2725, 5125, 8325, 12200] ∧
      rIn.ordinaryDistSq 10 = [12200, 7709, 4084, 1709, 8325, 5125, 2725, 1125, 200] ∧
      rOut.ordinaryDistSq 9 = [10000, 13169, 15044, 18169, 6025, 7225, 9225, 12025, 20000] ∧
      rOut.ordinaryDistSq 10 =
        [26900, 23569, 18944, 15569, 17725, 13725, 10525, 8125, 10900] ∧
      rIn.nodeDistSq 9 0 = some 200 ∧ rIn.nodeDistSq 10 8 = some 200 ∧
      rIn.nearestOrdinarySq 9 = some 200 ∧ rIn.nearestOrdinarySq 10 = some 200 ∧
      rOut.nearestOrdinarySq 9 = some 6025 ∧ rOut.nearestOrdinarySq 10 = some 8125 ∧
      (∃ d9 d10 : Int, rIn.nearestOrdinarySq 9 = some d9 ∧ rIn.nearestOrdinarySq 10 = some d10 ∧
        Real.sqrt (d9 : ℝ) ≤ R ∧ Real.sqrt (d10 : ℝ) ≤ R) ∧
      (∃ d9 d10 : Int, rOut.nearestOrdinarySq 9 = some d9 ∧ rOut.nearestOrdinarySq 10 = some d10 ∧
        R < Real.sqrt (d9 : ℝ) ∧ R < Real.sqrt (d10 : ℝ)) := by
  refine ⟨mainResult simLayout 1, mainResult simLayout 2, main_eq simLayout 1 0,
    main_eq simLayout 2 0, rfl, rfl, rfl, rfl, by decide, by decide, rfl, rfl, rfl, rfl, rfl, rfl,
    rfl, rfl, rfl, rfl, rfl, rfl, ⟨200, 200, rfl, rfl, ?_, ?_⟩, ⟨6025, 8125, rfl, rfl, ?_, ?_⟩⟩
  · exact sqrt_le_of_sq_le 200 R hR (by push_cast; exact hlo)
  · exact sqrt_le_of_sq_le 200 R hR (by push_cast; exact hlo)
  · exact lt_sqrt_of_sq_lt 6025 R hR (by push_cast; exact hhi)
  · exact lt_sqrt_of_sq_lt 8125 R hR (by push_cast; linarith)

/-- C3 (amended) at the radio range `R = 15` (`R^2 = 225`). -/
theorem C3_endpoint_range_separation_witness :
    (0 : ℝ) ≤ 15 ∧ (200 : ℝ) ≤ 15 ^ 2 ∧ (15 : ℝ) ^ 2 < 6025 ∧
    ∃ rOut rIn, main simLayout 1 12 = Except.ok rOut ∧ main simLayout 2 12 = Except.ok rIn ∧
      (∃ d9 d10 : Int, rIn.nearestOrdinarySq 9 = some d9 ∧ rIn.nearestOrdinarySq 10 = some d10 ∧
        Real.sqrt (d9 : ℝ) ≤ 15 ∧ Real.sqrt (d10 : ℝ) ≤ 15) ∧
      (∃ d9 d10 : Int, rOut.nearestOrdinarySq 9 = some d9 ∧ rOut.nearestOrdinarySq 10 = some d10 ∧
        (15 : ℝ) < Real.sqrt (d9 : ℝ) ∧ (15 : ℝ) < Real.sqrt (d10 : ℝ)) := by
  refine ⟨by norm_num, by norm_num, by norm_num, ?_⟩
  obtain ⟨rOut, rIn, h1, h2, _, _, _, _, _, _, _, _, _, _, _, _, _, _, _, _, _, _, hin, hout⟩ :=
    C3_endpoint_range_separation 15 (by norm_num) (by norm_num) (by norm_num)
  exact ⟨rOut, rIn, h1, h2, hin, hout⟩

/-! ## C9 : adjacent nodes against the radio range -/

/-- C9: with the layout of the source the nodes of every link of the documented topology
    (n0-n1, n1-n2, n2-n3, n3-n8, n0-n4, n4-n5, n5-n6, n6-n7, n7-n8) stand at squared distance at
    most 1025, under either scenario, and under OUT_OF_RANGE (selector 1) both tunnel endpoints
    stand at squared distance at least 6025 from every ordinary node 0..8. So there is one
    radio range, `R = 40`, within which every pair of adjacent nodes lies and beyond which both
    endpoints lie from every ordinary node under OUT_OF_RANGE. -/
theorem C9_common_radio_range :
    ∃ rOut rIn, main simLayout 1 12 = Except.ok rOut ∧ main simLayout 2 12 = Except.ok rIn ∧
      adjacentPairs.map (fun p => rOut.nodeDistSq p.1 p.2) =
        [some 769, some 625, some 625, some 769, some 1025, some 400, some 400, some 400,
          some 1025] ∧
      adjacentPairs.map (fun p => rIn.nodeDistSq p.1 p.2) =
        [some 769, some 625, some 625, some 769, some 1025, some 400, some 400, some 400,
          some 1025] ∧
      rOut.p2pNodes = [9, 10] ∧ rOut.wifiStaNodes = List.range 9 ∧
      rOut.p2pNodes.map (fun e => rOut.wifiStaNodes.map (fun o => rOut.nodeDistSq e o)) =
        [[some 10000, some 13169, some 15044, some 18169, some 6025, some 7225, some 9225,
          some 12025, some 20000],
         [some 26900, some 23569, some 18944, some 15569, some 17725, some 13725, some 10525,
          some 8125, some 10900]] ∧
      ∃ R : ℝ, R = 40 ∧
        (∀ p ∈ adjacentPairs,
          ∃ d : Int, rOut.nodeDistSq p.1 p.2 = some d ∧ Real.sqrt (d : ℝ) ≤ R) ∧
        (∀ p ∈ adjacentPairs,
          ∃ d : Int, rIn.nodeDistSq p.1 p.2 = some d ∧ Real.sqrt (d : ℝ) ≤ R) ∧
        (∀ e ∈ rOut.p2pNodes, ∀ o ∈ rOut.wifiStaNodes,
          ∃ d : Int, rOut.nodeDistSq e o = some d ∧ R < Real.sqrt (d : ℝ)) := by
  refine ⟨mainResult simLayout 1, mainResult simLayout 2, main_eq simLayout 1 0,
    main_eq simLayout 2 0, rfl, rfl, rfl, rfl, rfl, 40, rfl, ?_, ?_, ?_⟩
  · intro p hp
    have key : adjacentPairs.all
        (fun p => sqAtMost 1600 ((mainResult simLayout 1).nodeDistSq p.1 p.2)) = true := by
      decide
    obtain ⟨d, hd, hle⟩ := sqAtMost_spec 1600 _ (List.all_eq_true.mp key p hp)
    refine ⟨d, hd, sqrt_le_of_sq_le d 40 (by norm_num) ?_⟩
    have : (d : ℝ) ≤ 1600 := by exact_mod_cast hle
    linarith
  · intro p hp
    have key : adjacentPairs.all
        (fun p => sqAtMost 1600 ((mainResult simLayout 2).nodeDistSq p.1 p.2)) = true := by
      decide
    obtain ⟨d, hd, hle⟩ := sqAtMost_spec 1600 _ (List.all_eq_true.mp key p hp)
    refine ⟨d, hd, sqrt_le_of_sq_le d 40 (by norm_num) ?_⟩
    have : (d : ℝ) ≤ 1600 := by exact_mod_cast hle
    linarith
  · intro e he o ho
    have key : ((mainResult simLayout 1).p2pNodes.all (fun e =>
        (mainResult simLayout 1).wifiStaNodes.all (fun o =>
          sqAbove 1600 ((mainResult simLayout 1).nodeDistSq e o)))) = true := by
      decide
    obtain ⟨d, hd, hlt⟩ :=
      sqAbove_spec 1600 _ (List.all_eq_true.mp (List.all_eq_true.mp key e he) o ho)
    refine ⟨d, hd, lt_sqrt_of_sq_lt d 40 (by norm_num) ?_⟩
    have : (1600 : ℝ) < (d : ℝ) := by exact_mod_cast hlt
    linarith

end Wormhole
